import Mathlib

/-!
Verification of the Builder module of the design-patterns repository.

The source under scrutiny is `src/builder/builder.py`, class
`MarkdownBlogPostBuilder`.  Its state is a Python list `self.lines` of
already-rendered fragment strings; every `add_*` method appends exactly one
string to that list, and `build` returns `"\n".join(self.lines)`.

The embedding below mirrors that code: the state is a `List String`, each
method is a function from state (plus arguments) to state, and `build` is the
newline-join.  Strings are Lean `String`s; where a proof needs to look at the
characters of a string we go through `String.data`.
-/

namespace Builder

/-- The builder's internal state: the `self.lines` list of
`MarkdownBlogPostBuilder`, a list of already-rendered fragment strings. -/
abbrev BuilderState := List String

/-- `MarkdownBlogPostBuilder.__init__`: `self.lines = []`. -/
def init : BuilderState := []

/-- `add_title(self, text)`: `self.lines.append(f"# {text}")`. -/
def add_title (s : BuilderState) (text : String) : BuilderState :=
  s ++ ["# " ++ text]

/-- `add_header(self, text)`: `self.lines.append(f"## {text}")`. -/
def add_header (s : BuilderState) (text : String) : BuilderState :=
  s ++ ["## " ++ text]

/-- `add_paragraph(self, text)`: `self.lines.append(f"{text}\n")`. -/
def add_paragraph (s : BuilderState) (text : String) : BuilderState :=
  s ++ [text ++ "\n"]

/-- The loop of `add_list`: starting from the empty string, append
`f"* {point}\n"` for each point, left to right. -/
def list_text (list_of_points : List String) : String :=
  list_of_points.foldl (fun acc point => acc ++ ("* " ++ point ++ "\n")) ""

/-- `add_list(self, list_of_points)`: append the accumulated `list_text`
as one element of `self.lines`. -/
def add_list (s : BuilderState) (list_of_points : List String) : BuilderState :=
  s ++ [list_text list_of_points]

/-- Python's `"\n".join`: interleave a single newline between the elements
of the list, with no leading or trailing separator. -/
def join_nl : List String → String
  | [] => ""
  | [l] => l
  | l :: l2 :: ls => l ++ "\n" ++ join_nl (l2 :: ls)

/-- `build(self)`: `return "\n".join(self.lines)`. -/
def build (s : BuilderState) : String := join_nl s

/-- `build` viewed as a method call: the returned string together with the
state of `self.lines` after the call (the method performs no mutation). -/
def buildM (s : BuilderState) : String × BuilderState := (build s, s)

/-- One call to a mutating method of `MarkdownBlogPostBuilder`. -/
inductive Op where
  | title (text : String)
  | header (text : String)
  | paragraph (text : String)
  | bullet_list (list_of_points : List String)

/-- The fragment string a single method call appends to `self.lines`. -/
def renderOp : Op → String
  | Op.title t => "# " ++ t
  | Op.header t => "## " ++ t
  | Op.paragraph t => t ++ "\n"
  | Op.bullet_list ps => list_text ps

/-- Execute one method call on a builder state. -/
def runOp (s : BuilderState) : Op → BuilderState
  | Op.title t => add_title s t
  | Op.header t => add_header s t
  | Op.paragraph t => add_paragraph s t
  | Op.bullet_list ps => add_list s ps

/-- Execute a sequence of method calls, left to right. -/
def runOps (s : BuilderState) (ops : List Op) : BuilderState :=
  ops.foldl runOp s

/-- Modelled from the spec: the spec's description of `build` says the
fragments are "joined by a blank line separator", i.e. joined with an empty
line between consecutive fragments (separator `"\n\n"`). -/
def spec_blank_join : List String → String
  | [] => ""
  | [l] => l
  | l :: l2 :: ls => l ++ "\n\n" ++ spec_blank_join (l2 :: ls)

/-- Split a character list at every newline character; the result always has
one entry more than the number of newlines. -/
def splitNL : List Char → List (List Char)
  | [] => [[]]
  | c :: cs =>
    if c = '\n' then [] :: splitNL cs
    else
      match splitNL cs with
      | [] => [[c]]
      | line :: rest => (c :: line) :: rest

/-- The lines of a string, in the sense of Python's `str.split("\n")`. -/
def strLines (s : String) : List String :=
  (splitNL s.data).map (fun cs => String.mk cs)

lemma join_nl_cons (x : String) (L : List String) (h : L ≠ []) :
    join_nl (x :: L) = x ++ "\n" ++ join_nl L := by
  cases L with
  | nil => exact absurd rfl h
  | cons b l => rfl

lemma join_nl_merge (s : List String) (a b : String) (rest : List String) :
    join_nl (s ++ a :: b :: rest) = join_nl (s ++ (a ++ "\n" ++ b) :: rest) := by
  induction s with
  | nil =>
    cases rest with
    | nil => simp [join_nl, String.append_assoc]
    | cons r rs => simp [join_nl, String.append_assoc]
  | cons x s ih =>
    rw [List.cons_append, List.cons_append,
      join_nl_cons x (s ++ a :: b :: rest) (by simp),
      join_nl_cons x (s ++ (a ++ "\n" ++ b) :: rest) (by simp), ih]

lemma foldl_list_text_acc (ps : List String) (acc : String) :
    ps.foldl (fun a p => a ++ ("* " ++ p ++ "\n")) acc = acc ++ list_text ps := by
  induction ps generalizing acc with
  | nil => simp [list_text]
  | cons p ps ih =>
    simp only [list_text, List.foldl_cons] at *
    rw [ih, ih ("" ++ ("* " ++ p ++ "\n"))]
    simp [String.append_assoc]

lemma list_text_cons (p : String) (ps : List String) :
    list_text (p :: ps) = ("* " ++ p ++ "\n") ++ list_text ps := by
  simp only [list_text, List.foldl_cons]
  rw [foldl_list_text_acc]
  simp
  rfl

lemma list_text_join (ps : List String) :
    list_text ps = join_nl (ps.map (fun p => "* " ++ p) ++ [""]) := by
  induction ps with
  | nil => rfl
  | cons p ps ih =>
    rw [list_text_cons, ih, List.map_cons, List.cons_append,
      join_nl_cons _ _ (by simp), String.append_assoc]

lemma runOps_eq (ops : List Op) (s : BuilderState) :
    runOps s ops = s ++ ops.map renderOp := by
  induction ops generalizing s with
  | nil => simp [runOps]
  | cons op ops ih =>
    have hstep : runOp s op = s ++ [renderOp op] := by
      cases op <;> rfl
    simp only [runOps, List.foldl_cons] at *
    rw [ih, hstep, List.map_cons]
    simp

lemma ends_nl (a : String) : (a ++ "\n").data.getLast? = some '\n' := by
  rw [String.data_append]
  exact List.getLast?_concat _

lemma list_text_snoc (ps : List String) (p : String) :
    list_text (ps ++ [p]) = list_text ps ++ ("* " ++ p ++ "\n") := by
  simp only [list_text, List.foldl_append, List.foldl_cons, List.foldl_nil]

lemma list_text_ends_nl (ps : List String) (h : ps ≠ []) :
    (list_text ps).data.getLast? = some '\n' := by
  rcases List.eq_nil_or_concat ps with rfl | ⟨qs, p, rfl⟩
  · exact absurd rfl h
  · rw [List.concat_eq_append, list_text_snoc, ← String.append_assoc,
      ← String.append_assoc]
    exact ends_nl _

lemma append_getLast_ne (a t : String)
    (ha : a.data.getLast? ≠ some '\n')
    (ht : t.data.getLast? ≠ some '\n') :
    (a ++ t).data.getLast? ≠ some '\n' := by
  rw [String.data_append, List.getLast?_append]
  cases h : t.data.getLast? with
  | none => simpa [h, Option.or] using ha
  | some c =>
    rw [h] at ht
    simpa [Option.or] using ht

/-- A bullet line in the sense of `add_list`: a line that begins with the
bullet marker, the two characters star and space. -/
def bulletLine (l : String) : Bool := decide (l.data.take 2 = ['*', ' '])

/-- Claim C1, counterexample: for the scenario `add_title "T"`,
`add_paragraph "P"`, `add_list ["a","b"]`, the built string's lines are not
the claimed sequence `["# T", "", "P", "", "* a", "* b", ""]` — the code
puts no blank line between the title line and the paragraph line. -/
theorem c1_counterexample :
    strLines (build (add_list (add_paragraph (add_title init "T") "P") ["a", "b"])) ≠
      ["# T", "", "P", "", "* a", "* b", ""] := by decide

/-- Claim C1, amended: for the scenario `add_title "T"`, `add_paragraph "P"`,
`add_list ["a","b"]`, `build` returns `"# T\nP\n\n* a\n* b\n"`, whose lines,
in order, are `"# T"`, then `"P"` immediately (a single newline, no blank
line, after the title), then a blank line, then `"* a"` and `"* b"`, then a
trailing blank line. -/
theorem c1_amended :
    build (add_list (add_paragraph (add_title init "T") "P") ["a", "b"]) =
        "# T\nP\n\n* a\n* b\n" ∧
      strLines (build (add_list (add_paragraph (add_title init "T") "P") ["a", "b"])) =
        ["# T", "P", "", "* a", "* b", ""] :=
  ⟨by decide, by decide⟩

/-- Claim C2, counterexample: two `add_title` calls produce fragments that
`build` joins with a single newline, not with the blank-line separator the
claim describes. -/
theorem c2_counterexample :
    build (runOps init [Op.title "T", Op.title "U"]) = "# T\n# U" ∧
      spec_blank_join ([Op.title "T", Op.title "U"].map renderOp) = "# T\n\n# U" ∧
      build (runOps init [Op.title "T", Op.title "U"]) ≠
        spec_blank_join ([Op.title "T", Op.title "U"].map renderOp) :=
  ⟨by decide, by decide, by decide⟩

/-- Claim C2, amended: for every sequence of add-operations, `build` returns
the accumulated fragments joined by a single newline separator, in the order
the fragments were added. -/
theorem c2_amended (ops : List Op) :
    build (runOps init ops) = join_nl (ops.map renderOp) := by
  simp [build, runOps_eq, init]

/-- Claim C3: each add-operation appends exactly one fragment at the end of
the state, leaving all earlier fragments in place, so after any sequence of
add-operations the state is the renderings of the operations in call order,
and the rendered output lists the fragments in exactly that order. -/
theorem c3_order_invariant :
    (∀ (s : BuilderState) (op : Op), runOp s op = s ++ [renderOp op]) ∧
      (∀ ops : List Op, runOps init ops = ops.map renderOp) ∧
      (∀ ops : List Op, build (runOps init ops) = join_nl (ops.map renderOp)) := by
  refine ⟨fun s op => by cases op <;> rfl, fun ops => by simp [runOps_eq, init],
    fun ops => by simp [build, runOps_eq, init]⟩

/-- Claim C4: `build` is idempotent and side-effect free — viewed as a method
call it leaves the accumulated state unchanged, and calling it twice in
succession yields identical strings. -/
theorem c4_build_idempotent (s : BuilderState) :
    (buildM s).2 = s ∧ (buildM (buildM s).2).1 = (buildM s).1 :=
  ⟨rfl, rfl⟩

/-- Claim C5: `add_paragraph text` appends exactly one fragment, the text
followed by a trailing newline; in the built output that trailing newline
together with the join separator yields a blank line before the next
fragment. -/
theorem c5_add_paragraph (s : BuilderState) (text : String) :
    add_paragraph s text = s ++ [text ++ "\n"] ∧
      ∀ (g : String) (rest : List String),
        build (add_paragraph s text ++ g :: rest) =
          build (s ++ (text ++ "\n" ++ "\n" ++ g) :: rest) := by
  refine ⟨rfl, fun g rest => ?_⟩
  show join_nl ((s ++ [text ++ "\n"]) ++ g :: rest) = _
  rw [List.append_assoc, List.singleton_append]
  exact join_nl_merge s (text ++ "\n") g rest

/-- Claim C6: `add_list items` appends exactly one fragment, whose content is
one line per item — the item prefixed with the bullet marker — with the
lines newline-separated and a trailing empty line after the last item. -/
theorem c6_add_list (s : BuilderState) (items : List String) :
    add_list s items = s ++ [list_text items] ∧
      list_text items = join_nl (items.map (fun p => "* " ++ p) ++ [""]) :=
  ⟨rfl, list_text_join items⟩

/-- Claim C7: `add_title text` appends one block rendered as the text
prefixed with the single heading marker, and `add_header text` appends one
block rendered as the text prefixed with the double heading marker. -/
theorem c7_title_header (s : BuilderState) (text : String) :
    add_title s text = s ++ ["# " ++ text] ∧
      add_header s text = s ++ ["## " ++ text] ∧
      build (add_title init text) = "# " ++ text ∧
      build (add_header init text) = "## " ++ text :=
  ⟨rfl, rfl, rfl, rfl⟩

/-- Claim C8: `add_list []` is accepted and appends one empty fragment, and
`add_list []` followed by `build` on an otherwise-empty builder yields the
empty string, which contains no bullet lines. -/
theorem c8_empty_list (s : BuilderState) :
    add_list s [] = s ++ [""] ∧
      add_list init [] = [""] ∧
      build (add_list init []) = "" ∧
      ((strLines (build (add_list init []))).all fun l => !(bulletLine l)) = true :=
  ⟨rfl, rfl, rfl, by decide⟩

/-- Claim C9: `build` on a freshly created builder returns the empty
string. -/
theorem c9_empty_build : build init = "" := rfl

/-- Claim C10, counterexample: for the input `"T\n"`, which itself ends with
a newline, `add_title` stores the fragment `"# T\n"`, which does end with a
newline — so the claim's universally quantified "title fragments do not end
with a newline" fails. -/
theorem c10_counterexample :
    add_title init "T\n" = ["# T\n"] ∧ ("# T\n").data.getLast? = some '\n' :=
  ⟨rfl, by decide⟩

/-- Claim C10, amended: for every text input that does not itself end with a
newline, the fragments stored by `add_title` and `add_header` do not end
with a newline; for every text input the fragment stored by `add_paragraph`
ends with a newline, as does the fragment stored by `add_list` on a
non-empty sequence; and `build` inserts exactly one newline between
consecutive fragments, so a fragment is followed by a blank line in the
output exactly when it ends with a newline. -/
theorem c10_fragment_endings (text : String) (ps : List String) :
    (text.data.getLast? ≠ some '\n' →
        (renderOp (Op.title text)).data.getLast? ≠ some '\n' ∧
        (renderOp (Op.header text)).data.getLast? ≠ some '\n') ∧
      (renderOp (Op.paragraph text)).data.getLast? = some '\n' ∧
      (ps ≠ [] → (renderOp (Op.bullet_list ps)).data.getLast? = some '\n') ∧
      (∀ (s rest : BuilderState) (f g : String),
        build (s ++ f :: g :: rest) = build (s ++ (f ++ "\n" ++ g) :: rest)) := by
  refine ⟨fun h => ⟨append_getLast_ne _ _ (by decide) h, append_getLast_ne _ _ (by decide) h⟩,
    ends_nl text, fun h => list_text_ends_nl ps h, fun s rest f g => join_nl_merge s f g rest⟩

/-- Witness for C10, amended: the theorem applied at `text := "T"` and
`ps := ["a"]`, with both hypotheses discharged. -/
theorem c10_fragment_endings_witness :
    (renderOp (Op.title "T")).data.getLast? ≠ some '\n' ∧
      (renderOp (Op.bullet_list ["a"])).data.getLast? = some '\n' :=
  ⟨((c10_fragment_endings "T" ["a"]).1 (by decide)).1,
    (c10_fragment_endings "T" ["a"]).2.2.1 (by decide)⟩

end Builder
